import Mathlib

/-!
Verification of the storage engine of database_server.py: the Volatile and
NonVolatile storage classes, the RWLock built from three bounded semaphores,
and the atomic persistence protocol of NonVolatile.set.

The embedding is shallow.  Python dicts with string keys and values are
association lists with Python's insertion-order update semantics.  A
threading.BoundedSemaphore(1) is its integer value (0 or 1): acquire blocks
when the value is 0 (modelled sequentially as the error Blocked), release
raises ValueError when the value is already at its bound.  The json module
is modelled at the level of the JSON document the snapshot file holds: dump
writes the dictionary as the document, load of a well-formed object document
returns that object, load of anything else raises a decode error (which is
not an IOError).  File-system effects of NonVolatile.set are modelled by the
snapshot content plus a trace of the I/O events the method performs, and an
optional injected failure point reproduces an I/O error at any single step
of the persistence protocol.
-/

namespace DatabaseServer

/-! ### Python dict with string keys and values -/

abbrev Dict := List (String × String)

/-- Python dict assignment: replace the value in place if the key is bound,
otherwise append the new binding at the end (insertion order). -/
def Dict.update : Dict → String → String → Dict
  | [], k, v => [(k, v)]
  | (k', v') :: rest, k, v =>
    if k' = k then (k', v) :: rest else (k', v') :: Dict.update rest k v

/-- Python dict.get(key, default). -/
def Dict.getD : Dict → String → String → String
  | [], _, dflt => dflt
  | (k', v') :: rest, k, dflt => if k' = k then v' else Dict.getD rest k dflt

/-- Python key-membership test on a dict. -/
def Dict.hasKey : Dict → String → Bool
  | [], _ => false
  | (k', _) :: rest, k => k' = k || Dict.hasKey rest k

/-! ### Bounded semaphores and the sequential RWLock methods

Each method of RWLock is a straight-line sequence of semaphore operations,
so a single (sequential) call is a function on the lock state.  Acquiring a
semaphore whose value is 0 blocks; in a single-threaded run that is a
deadlock, modelled as the outcome Blocked.  Releasing a
BoundedSemaphore(1) whose value is already 1 raises ValueError. -/

inductive SeqErr
  | blocked
  | valueError
deriving DecidableEq

/-- threading.Semaphore.acquire on a semaphore with current value v. -/
def semAcquire (v : Nat) : Except SeqErr Nat :=
  if v = 0 then .error .blocked else .ok (v - 1)

/-- threading.BoundedSemaphore(1).release on current value v: raises
ValueError when the value is already at the bound 1. -/
def semRelease (v : Nat) : Except SeqErr Nat :=
  if 1 ≤ v then .error .valueError else .ok (v + 1)

/-- State of RWLock: the reader counter and the values of the three
BoundedSemaphore(1) primitives counter_semaphore, reader_semaphore and
writer_semaphore. -/
structure RWLock where
  counter : Int
  counterSem : Nat
  readerSem : Nat
  writerSem : Nat
deriving DecidableEq

/-- RWLock.__init__: counter 0, all three semaphores available. -/
def RWLock.init : RWLock := ⟨0, 1, 1, 1⟩

/-- RWLock.reader_acquire: take the reader gate, take the counter guard,
increment the counter, and if this is the first reader take the writer
gate; then put back the counter guard and the reader gate. -/
def RWLock.readerAcquire (l : RWLock) : Except SeqErr RWLock := do
  let rs ← semAcquire l.readerSem
  let cs ← semAcquire l.counterSem
  let c := l.counter + 1
  let ws ← if c = 1 then semAcquire l.writerSem else pure l.writerSem
  let cs' ← semRelease cs
  let rs' ← semRelease rs
  pure ⟨c, cs', rs', ws⟩

/-- RWLock.reader_release: take the counter guard, decrement the counter,
and if this was the last reader free the writer gate; then put back the
counter guard. -/
def RWLock.readerRelease (l : RWLock) : Except SeqErr RWLock := do
  let cs ← semAcquire l.counterSem
  let c := l.counter - 1
  let ws ← if c = 0 then semRelease l.writerSem else pure l.writerSem
  let cs' ← semRelease cs
  pure ⟨c, cs', l.readerSem, ws⟩

/-- RWLock.writer_acquire: take the reader gate, then the writer gate. -/
def RWLock.writerAcquire (l : RWLock) : Except SeqErr RWLock := do
  let rs ← semAcquire l.readerSem
  let ws ← semAcquire l.writerSem
  pure ⟨l.counter, l.counterSem, rs, ws⟩

/-- RWLock.writer_release: free the writer gate, then the reader gate. -/
def RWLock.writerRelease (l : RWLock) : Except SeqErr RWLock := do
  let ws ← semRelease l.writerSem
  let rs ← semRelease l.readerSem
  pure ⟨l.counter, l.counterSem, rs, ws⟩

/-! ### Volatile storage -/

structure Volatile where
  data : Dict
deriving DecidableEq

def Volatile.empty : Volatile := ⟨[]⟩

/-- Volatile.set: plain dict assignment, no locking, no I/O. -/
def Volatile.update (s : Volatile) (k v : String) : Volatile :=
  ⟨Dict.update s.data k v⟩

/-- Volatile.get: dict lookup with empty-string default. -/
def Volatile.get (s : Volatile) (k : String) : String :=
  Dict.getD s.data k ""

/-! ### The snapshot file and the json module -/

/-- The JSON document a file holds: either a well-formed object with string
values (what json.dump of the data dict writes), or anything json.load
cannot turn into such an object (malformed text, or a non-object
document). -/
inductive JDoc
  | obj (d : Dict)
  | malformed
deriving DecidableEq

/-- The snapshot path on disk: no file, a file whose open or read raises
IOError, or a file holding a JSON document. -/
inductive SnapshotFile
  | absent
  | unreadable
  | holds (doc : JDoc)
deriving DecidableEq

/-- The file system as NonVolatile sees it: the content at FILENAME. -/
structure FS where
  snapshot : SnapshotFile
deriving DecidableEq

/-- Python errors the storage paths can raise. -/
inductive PyErr
  | ioError
  | jsonDecodeError
deriving DecidableEq

/-- posixpath.dirname: everything before the last slash, with trailing
slashes stripped unless the result is all slashes. -/
def dirname (p : String) : String :=
  let head := ((p.toList.reverse.dropWhile (fun c => c ≠ '/')).reverse)
  if head.isEmpty ∨ head.all (fun c => c = '/') then String.mk head
  else String.mk ((head.reverse.dropWhile (fun c => c = '/')).reverse)

/-! ### NonVolatile storage -/

structure NonVolatile where
  lock : RWLock
  data : Dict
deriving DecidableEq

/-- NonVolatile.__init__: try to open FILENAME and json.load it; an IOError
(missing or unreadable file) is caught and leaves the mapping empty; a
json.JSONDecodeError is not an IOError and propagates out of the
constructor. -/
def NonVolatile.mkFrom (fs : FS) : Except PyErr NonVolatile :=
  match fs.snapshot with
  | .absent => .ok ⟨RWLock.init, []⟩
  | .unreadable => .ok ⟨RWLock.init, []⟩
  | .holds (.obj d) => .ok ⟨RWLock.init, d⟩
  | .holds .malformed => .error .jsonDecodeError

/-- NonVolatile.get: reader_acquire; look the key up with empty-string
default; reader_release in the finally block. -/
def NonVolatile.get (nv : NonVolatile) (k : String) :
    Except SeqErr (String × NonVolatile) := do
  let l ← nv.lock.readerAcquire
  let v := Dict.getD nv.data k ""
  let l' ← l.readerRelease
  pure (v, ⟨l', nv.data⟩)

/-- The individual I/O steps of NonVolatile.set that can raise, in program
order.  An injected failure names the single step that raises IOError. -/
inductive SetStep
  | tempCreate
  | jsonDump
  | flushTemp
  | fsyncFile
  | tempClose
  | renameTemp
  | dirOpen
  | dirFsync
  | dirClose
deriving DecidableEq

/-- The steps that precede the completion of os.rename. -/
def SetStep.preRename : SetStep → Bool
  | .tempCreate | .jsonDump | .flushTemp | .fsyncFile | .tempClose | .renameTemp => true
  | .dirOpen | .dirFsync | .dirClose => false

/-- Observable I/O and lock events of NonVolatile.set, in the order the
method performs them. -/
inductive Event
  | writerAcquire
  | memWrite (k v : String)
  | tempCreate (dir : String)
  | jsonDump (d : Dict)
  | flushTemp
  | fsyncFile
  | tempClose
  | renameTemp (dst : String)
  | dirOpen (dir : String)
  | dirFsync
  | dirClose
  | writerRelease
deriving DecidableEq

/-- The persistence body of NonVolatile.set, after the in-memory mutation:
create a temporary file in the directory of the snapshot path, json.dump
the whole mapping into it, flush it, fsync it, close it (end of the with
block), os.rename it onto the snapshot path, then open, fsync and close the
containing directory.  The snapshot content changes exactly at the rename.
Returns the outcome, the resulting file system, and the trace of the events
that happened. -/
def atomicPersist (fs : FS) (fn : String) (data : Dict) (fail : Option SetStep) :
    Except PyErr Unit × FS × List Event :=
  if fail = some .tempCreate then (.error .ioError, fs, []) else
  let t1 := [Event.tempCreate (dirname fn)]
  if fail = some .jsonDump then (.error .ioError, fs, t1) else
  let t2 := t1 ++ [Event.jsonDump data]
  if fail = some .flushTemp then (.error .ioError, fs, t2) else
  let t3 := t2 ++ [Event.flushTemp]
  if fail = some .fsyncFile then (.error .ioError, fs, t3) else
  let t4 := t3 ++ [Event.fsyncFile]
  if fail = some .tempClose then (.error .ioError, fs, t4) else
  let t5 := t4 ++ [Event.tempClose]
  if fail = some .renameTemp then (.error .ioError, fs, t5) else
  let fs' : FS := ⟨.holds (.obj data)⟩
  let t6 := t5 ++ [Event.renameTemp fn]
  if fail = some .dirOpen then (.error .ioError, fs', t6) else
  let t7 := t6 ++ [Event.dirOpen (dirname fn)]
  if fail = some .dirFsync then (.error .ioError, fs', t7) else
  let t8 := t7 ++ [Event.dirFsync]
  if fail = some .dirClose then (.error .ioError, fs', t8) else
  (.ok (), fs', t8 ++ [Event.dirClose])

/-- Everything NonVolatile.set leaves behind: the outcome its caller sees,
the storage instance, the file system, and the event trace. -/
structure SetResult where
  status : Except PyErr Unit
  nv : NonVolatile
  fs : FS
  trace : List Event

/-- NonVolatile.set: writer_acquire; inside the try block first mutate the
in-memory dict, then run the atomic persistence protocol; writer_release in
the finally block on success and on every failure alike, after which the
outcome (success or the propagated exception) reaches the caller. -/
def NonVolatile.set (nv : NonVolatile) (fs : FS) (fn k v : String)
    (fail : Option SetStep) : Except SeqErr SetResult := do
  let l ← nv.lock.writerAcquire
  let data := Dict.update nv.data k v
  let (st, fs', tr) := atomicPersist fs fn data fail
  let l' ← l.writerRelease
  pure ⟨st, ⟨l', data⟩, fs', Event.writerAcquire :: Event.memWrite k v :: tr ++ [Event.writerRelease]⟩

/-- The event trace of a successful NonVolatile.set. -/
def successTrace (fn k v : String) (data : Dict) : List Event :=
  [Event.writerAcquire, Event.memWrite k v, Event.tempCreate (dirname fn),
   Event.jsonDump data, Event.flushTemp, Event.fsyncFile, Event.tempClose,
   Event.renameTemp fn, Event.dirOpen (dirname fn), Event.dirFsync,
   Event.dirClose, Event.writerRelease]

/-- Applying a list of set operations to the volatile store. -/
def applyVolatile (ops : List (String × String)) : Volatile :=
  ops.foldl (fun s p => Volatile.update s p.1 p.2) Volatile.empty

/-- Applying a list of dict updates. -/
def applyUpdates (d : Dict) (ops : List (String × String)) : Dict :=
  ops.foldl (fun a p => Dict.update a p.1 p.2) d

/-! ### Basic dict lemmas -/

theorem Dict.getD_update (d : Dict) (k v dflt : String) :
    Dict.getD (Dict.update d k v) k dflt = v := by
  induction d with
  | nil => simp [Dict.update, Dict.getD]
  | cons p rest ih =>
    by_cases h : p.1 = k
    · simp [Dict.update, Dict.getD, h]
    · simp [Dict.update, Dict.getD, h, ih]

theorem Dict.getD_update_ne (d : Dict) (k' v k dflt : String) (h : k' ≠ k) :
    Dict.getD (Dict.update d k' v) k dflt = Dict.getD d k dflt := by
  induction d with
  | nil => simp [Dict.update, Dict.getD, h]
  | cons p rest ih =>
    by_cases hp : p.1 = k'
    · simp [Dict.update, Dict.getD, hp, h]
    · simp [Dict.update, Dict.getD, hp, ih]

theorem Dict.getD_of_hasKey_false (d : Dict) (k dflt : String)
    (h : Dict.hasKey d k = false) : Dict.getD d k dflt = dflt := by
  induction d with
  | nil => rfl
  | cons p rest ih =>
    simp [Dict.hasKey] at h
    simp [Dict.getD, h.1, ih h.2]

theorem getD_applyUpdates (ops : List (String × String)) (d : Dict) (k dflt : String)
    (h : ∀ p ∈ ops, p.1 ≠ k) :
    Dict.getD (applyUpdates d ops) k dflt = Dict.getD d k dflt := by
  induction ops generalizing d with
  | nil => rfl
  | cons p rest ih =>
    have hp : p.1 ≠ k := h p (by simp)
    have hrest : ∀ q ∈ rest, q.1 ≠ k := fun q hq => h q (by simp [hq])
    calc Dict.getD (applyUpdates (Dict.update d p.1 p.2) rest) k dflt
        = Dict.getD (Dict.update d p.1 p.2) k dflt := ih (Dict.update d p.1 p.2) hrest
      _ = Dict.getD d k dflt := Dict.getD_update_ne d p.1 p.2 k dflt hp

theorem applyVolatile_data (ops : List (String × String)) :
    (applyVolatile ops).data = applyUpdates [] ops := by
  suffices hgen : ∀ (s : Volatile),
      (ops.foldl (fun a p => Volatile.update a p.1 p.2) s).data =
        ops.foldl (fun a p => Dict.update a p.1 p.2) s.data by
    exact hgen Volatile.empty
  induction ops with
  | nil => intro s; rfl
  | cons p rest ih => intro s; exact ih ⟨Dict.update s.data p.1 p.2⟩

/-! ### Computation lemmas for the sequential storage model -/

/-- A single get on a quiescent instance (lock in its resting state)
succeeds and returns the dict lookup, leaving the lock at rest. -/
theorem get_init_eq (dd : Dict) (k : String) :
    NonVolatile.get ⟨RWLock.init, dd⟩ k = .ok (Dict.getD dd k "", ⟨RWLock.init, dd⟩) := rfl

/-- A failure-free set on a quiescent instance succeeds, updates the
mapping, replaces the snapshot with the serialization of the full new
mapping, and leaves the lock at rest. -/
theorem set_init_eq (d : Dict) (fs : FS) (fn k v : String) :
    NonVolatile.set ⟨RWLock.init, d⟩ fs fn k v none =
      .ok ⟨.ok (), ⟨RWLock.init, Dict.update d k v⟩, ⟨.holds (.obj (Dict.update d k v))⟩,
           successTrace fn k v (Dict.update d k v)⟩ := rfl

/-- A set whose persistence protocol fails at step f raises IOError to the
caller, has already mutated the in-memory mapping, leaves the lock at rest,
and leaves the snapshot unchanged when f precedes the rename and already
replaced when f follows it. -/
theorem set_init_fail_eq (d : Dict) (fs : FS) (fn k v : String) (f : SetStep) :
    NonVolatile.set ⟨RWLock.init, d⟩ fs fn k v (some f) =
      .ok ⟨.error .ioError, ⟨RWLock.init, Dict.update d k v⟩,
           (if SetStep.preRename f then fs else ⟨.holds (.obj (Dict.update d k v))⟩),
           Event.writerAcquire :: Event.memWrite k v ::
             (atomicPersist fs fn (Dict.update d k v) (some f)).2.2 ++ [Event.writerRelease]⟩ := by
  cases f <;> rfl

/-! ### C1: read-after-write and last-writer-wins -/

/-- C1.  After set(k, v) on a quiescent durable instance returns
successfully, get(k) on the resulting instance returns v; and after
set(k, v1) followed by set(k, v2), get(k) returns v2. -/
theorem nv_read_after_write (d : Dict) (fs : FS) (fn k v1 v2 : String) :
    (∀ r, NonVolatile.set ⟨RWLock.init, d⟩ fs fn k v1 none = .ok r →
        NonVolatile.get r.nv k = .ok (v1, r.nv))
  ∧ (∀ r1 r2, NonVolatile.set ⟨RWLock.init, d⟩ fs fn k v1 none = .ok r1 →
        NonVolatile.set r1.nv r1.fs fn k v2 none = .ok r2 →
        NonVolatile.get r2.nv k = .ok (v2, r2.nv)) := by
  constructor
  · intro r hr
    rw [set_init_eq] at hr
    injection hr with hr
    subst hr
    rw [get_init_eq, Dict.getD_update]
  · intro r1 r2 h1 h2
    rw [set_init_eq] at h1
    injection h1 with h1
    subst h1
    rw [show (⟨.ok (), ⟨RWLock.init, Dict.update d k v1⟩, ⟨.holds (.obj (Dict.update d k v1))⟩,
          successTrace fn k v1 (Dict.update d k v1)⟩ : SetResult).nv = ⟨RWLock.init, Dict.update d k v1⟩ from rfl,
        set_init_eq] at h2
    injection h2 with h2
    subst h2
    rw [get_init_eq, Dict.getD_update]

/-- Witness for C1 at a concrete input. -/
theorem nv_read_after_write_witness :
    NonVolatile.get ⟨RWLock.init, Dict.update [] "a" "1"⟩ "a" =
      .ok ("1", ⟨RWLock.init, Dict.update [] "a" "1"⟩) :=
  (nv_read_after_write [] ⟨.absent⟩ "/srv/data.dat" "a" "1" "2").1
    ⟨.ok (), ⟨RWLock.init, Dict.update [] "a" "1"⟩,
     ⟨.holds (.obj (Dict.update [] "a" "1"))⟩,
     successTrace "/srv/data.dat" "a" "1" (Dict.update [] "a" "1")⟩ rfl

/-! ### C2: durability round-trip -/

/-- C2.  After a successful set on a durable instance, a fresh durable
instance constructed from the resulting snapshot returns the written value
for the written key: deserializing the snapshot written by set recovers the
mapping that was serialized. -/
theorem durability_roundtrip (fs : FS) (fn k v : String) :
    ∀ nv0 r nv1, NonVolatile.mkFrom fs = .ok nv0 →
      NonVolatile.set nv0 fs fn k v none = .ok r →
      NonVolatile.mkFrom r.fs = .ok nv1 →
      NonVolatile.get nv1 k = .ok (v, nv1) := by
  obtain ⟨snap⟩ := fs
  have main : ∀ (d : Dict) r nv1,
      NonVolatile.set ⟨RWLock.init, d⟩ ⟨snap⟩ fn k v none = .ok r →
      NonVolatile.mkFrom r.fs = .ok nv1 →
      NonVolatile.get nv1 k = .ok (v, nv1) := by
    intro d r nv1 h1 h2
    rw [set_init_eq] at h1
    injection h1 with h1
    subst h1
    rw [show NonVolatile.mkFrom ⟨.holds (.obj (Dict.update d k v))⟩ =
          .ok ⟨RWLock.init, Dict.update d k v⟩ from rfl] at h2
    injection h2 with h2
    subst h2
    rw [get_init_eq, Dict.getD_update]
  intro nv0 r nv1 h0 h1 h2
  cases snap with
  | absent =>
    injection h0 with h0; subst h0; exact main [] r nv1 h1 h2
  | unreadable =>
    injection h0 with h0; subst h0; exact main [] r nv1 h1 h2
  | holds doc =>
    cases doc with
    | obj d =>
      injection h0 with h0; subst h0; exact main d r nv1 h1 h2
    | malformed => exact absurd h0 (by simp [NonVolatile.mkFrom])

/-- Witness for C2 at a concrete input. -/
theorem durability_roundtrip_witness :
    NonVolatile.get ⟨RWLock.init, Dict.update [] "b" "2"⟩ "b" =
      .ok ("2", ⟨RWLock.init, Dict.update [] "b" "2"⟩) :=
  durability_roundtrip ⟨.absent⟩ "/srv/data.dat" "b" "2"
    ⟨RWLock.init, []⟩
    ⟨.ok (), ⟨RWLock.init, Dict.update [] "b" "2"⟩,
     ⟨.holds (.obj (Dict.update [] "b" "2"))⟩,
     successTrace "/srv/data.dat" "b" "2" (Dict.update [] "b" "2")⟩
    ⟨RWLock.init, Dict.update [] "b" "2"⟩ rfl rfl rfl

/-! ### C3: failure behaviour of the persistence protocol -/

/-- C3 (amended).  Whichever step of the persistence protocol fails, set
propagates IOError to its caller and the write lock is back at rest (the
finally block released it); the snapshot still holds its pre-call content
for a failure at any step up to and including the rename, but for a failure
during the directory-sync steps (after the rename) the snapshot already
holds the new content. -/
theorem set_failure_behavior (d : Dict) (fs : FS) (fn k v : String) (f : SetStep) :
    ∀ r, NonVolatile.set ⟨RWLock.init, d⟩ fs fn k v (some f) = .ok r →
      r.status = .error .ioError
    ∧ r.nv.lock = RWLock.init
    ∧ (SetStep.preRename f = true → r.fs = fs)
    ∧ (SetStep.preRename f = false → r.fs = ⟨.holds (.obj (Dict.update d k v))⟩) := by
  intro r hr
  rw [set_init_fail_eq] at hr
  injection hr with hr
  subst hr
  refine ⟨rfl, rfl, ?_, ?_⟩ <;> intro hp <;> simp [hp]

/-- Witness for C3's amended statement at a concrete input. -/
theorem set_failure_behavior_witness :
    (⟨.error .ioError, ⟨RWLock.init, Dict.update [("k", "0")] "k" "1"⟩, ⟨.absent⟩,
        [Event.writerAcquire, Event.memWrite "k" "1", Event.writerRelease]⟩ : SetResult).status
        = .error .ioError
  ∧ (⟨.error .ioError, ⟨RWLock.init, Dict.update [("k", "0")] "k" "1"⟩, ⟨.absent⟩,
        [Event.writerAcquire, Event.memWrite "k" "1", Event.writerRelease]⟩ : SetResult).nv.lock
        = RWLock.init
  ∧ (SetStep.preRename .tempCreate = true →
      (⟨.error .ioError, ⟨RWLock.init, Dict.update [("k", "0")] "k" "1"⟩, ⟨.absent⟩,
        [Event.writerAcquire, Event.memWrite "k" "1", Event.writerRelease]⟩ : SetResult).fs = ⟨.absent⟩)
  ∧ (SetStep.preRename .tempCreate = false →
      (⟨.error .ioError, ⟨RWLock.init, Dict.update [("k", "0")] "k" "1"⟩, ⟨.absent⟩,
        [Event.writerAcquire, Event.memWrite "k" "1", Event.writerRelease]⟩ : SetResult).fs
        = ⟨.holds (.obj (Dict.update [("k", "0")] "k" "1"))⟩) :=
  set_failure_behavior [("k", "0")] ⟨.absent⟩ "/srv/data.dat" "k" "1" .tempCreate
    ⟨.error .ioError, ⟨RWLock.init, Dict.update [("k", "0")] "k" "1"⟩, ⟨.absent⟩,
     [Event.writerAcquire, Event.memWrite "k" "1", Event.writerRelease]⟩ rfl

/-- Counterexample for C3 as stated: a failure at the directory-sync step
(step 4 of the protocol, enumerated among steps 1-4 by the claim) raises a
storage failure, yet the snapshot on disk does not hold its pre-call
content any more, because the rename had already run. -/
theorem set_dirsync_failure_replaces_snapshot :
    (NonVolatile.set ⟨RWLock.init, [("a", "0")]⟩ ⟨.holds (.obj [("a", "0")])⟩
        "/srv/data.dat" "a" "1" (some .dirFsync)).map SetResult.status
      = .ok (.error .ioError)
  ∧ (NonVolatile.set ⟨RWLock.init, [("a", "0")]⟩ ⟨.holds (.obj [("a", "0")])⟩
        "/srv/data.dat" "a" "1" (some .dirFsync)).map SetResult.fs
      = .ok ⟨.holds (.obj [("a", "1")])⟩
  ∧ (⟨.holds (.obj [("a", "1")])⟩ : FS) ≠ ⟨.holds (.obj [("a", "0")])⟩ :=
  ⟨rfl, rfl, by decide⟩

/-! ### C4: the successful persistence protocol, in order -/

/-- C4.  A successful set on a quiescent durable instance performs exactly,
and in this order: writer acquire, in-memory mutation, creation of a
temporary file in the directory of the snapshot path, serialization of the
entire updated mapping into it, flush, file fsync, close, atomic rename
onto the snapshot path, directory open, directory fsync, directory close,
and only then writer release and a successful return, with the snapshot
replaced by the serialization of the full new mapping. -/
theorem set_success_protocol (d : Dict) (fs : FS) (fn k v : String) :
    NonVolatile.set ⟨RWLock.init, d⟩ fs fn k v none =
      .ok ⟨.ok (), ⟨RWLock.init, Dict.update d k v⟩, ⟨.holds (.obj (Dict.update d k v))⟩,
           [Event.writerAcquire, Event.memWrite k v, Event.tempCreate (dirname fn),
            Event.jsonDump (Dict.update d k v), Event.flushTemp, Event.fsyncFile,
            Event.tempClose, Event.renameTemp fn, Event.dirOpen (dirname fn),
            Event.dirFsync, Event.dirClose, Event.writerRelease]⟩ := rfl

/-! ### C5: absent keys read as the empty string and get never fails -/

/-- C5.  A key that is absent from the loaded snapshot and never set by any
subsequent operation reads as the empty string on both variants, and get
does not fail: on the volatile variant it is a total function, on the
durable variant it returns successfully. -/
theorem get_absent_key (d0 : Dict) (ops : List (String × String)) (k : String)
    (h0 : Dict.hasKey d0 k = false) (h1 : ∀ p ∈ ops, p.1 ≠ k) :
    Volatile.get (applyVolatile ops) k = ""
  ∧ NonVolatile.get ⟨RWLock.init, applyUpdates d0 ops⟩ k =
      .ok ("", ⟨RWLock.init, applyUpdates d0 ops⟩) := by
  have habs : Dict.getD (applyUpdates d0 ops) k "" = "" := by
    rw [getD_applyUpdates ops d0 k "" h1, Dict.getD_of_hasKey_false d0 k "" h0]
  constructor
  · show Dict.getD (applyVolatile ops).data k "" = ""
    rw [applyVolatile_data]
    rw [getD_applyUpdates ops [] k "" h1]
    rfl
  · rw [get_init_eq, habs]

/-- Witness for C5 at a concrete input. -/
theorem get_absent_key_witness :
    Volatile.get (applyVolatile [("b", "2")]) "c" = ""
  ∧ NonVolatile.get ⟨RWLock.init, applyUpdates [("a", "1")] [("b", "2")]⟩ "c" =
      .ok ("", ⟨RWLock.init, applyUpdates [("a", "1")] [("b", "2")]⟩) :=
  get_absent_key [("a", "1")] [("b", "2")] "c" (by decide) (by decide)

/-! ### C6: construction with a missing or unreadable snapshot -/

/-- C6.  Constructing the durable variant when the snapshot file is absent,
or when reading it raises IOError, does not raise: it returns an instance
with an empty mapping, and get of any key on that instance returns the
empty string. -/
theorem startup_missing_snapshot (fs : FS) (k : String)
    (h : fs.snapshot = .absent ∨ fs.snapshot = .unreadable) :
    NonVolatile.mkFrom fs = .ok ⟨RWLock.init, []⟩
  ∧ (∀ nv, NonVolatile.mkFrom fs = .ok nv → NonVolatile.get nv k = .ok ("", nv)) := by
  obtain ⟨snap⟩ := fs
  rcases h with h | h <;>
    (simp only at h; subst h;
     exact ⟨rfl, fun nv hnv => by injection hnv with h2; subst h2; rfl⟩)

/-- Witness for C6 at a concrete input. -/
theorem startup_missing_snapshot_witness :
    NonVolatile.mkFrom ⟨.absent⟩ = .ok ⟨RWLock.init, []⟩
  ∧ (∀ nv, NonVolatile.mkFrom ⟨.absent⟩ = .ok nv →
      NonVolatile.get nv "x" = .ok ("", nv)) :=
  startup_missing_snapshot ⟨.absent⟩ "x" (Or.inl rfl)

/-! ### C9: release without a matching acquire -/

/-- C9 (amended).  writer_release without a matching acquire raises a fatal
ValueError from over-releasing a bounded semaphore, both on a fully free
lock and on a lock held by readers; but reader_release without a matching
reader acquire on a free lock raises nothing: it silently drives the
counter to -1 and returns. -/
theorem release_without_acquire :
    RWLock.writerRelease RWLock.init = .error .valueError
  ∧ RWLock.writerRelease ⟨1, 1, 1, 0⟩ = .error .valueError
  ∧ RWLock.readerRelease RWLock.init = .ok ⟨-1, 1, 1, 1⟩ :=
  ⟨rfl, rfl, rfl⟩

/-- Counterexample for C9 as stated: reader_release on a freshly
constructed lock, with no acquire outstanding, is not a raised fatal
assertion: it returns successfully, leaving the counter at -1. -/
theorem reader_release_unmatched_is_silent :
    RWLock.readerRelease RWLock.init = .ok ⟨-1, 1, 1, 1⟩ := rfl

/-! ### C10: memory and disk diverge after a failed set -/

/-- C10.  When set fails at any step of the persistence protocol, the
in-memory mapping already contains the new value, so a subsequent get on
the same instance returns the value whose persistence failed, while for a
failure preceding the rename the snapshot on disk is unchanged. -/
theorem failed_set_divergence (d : Dict) (fs : FS) (fn k v : String) (f : SetStep) :
    ∀ r, NonVolatile.set ⟨RWLock.init, d⟩ fs fn k v (some f) = .ok r →
      r.status = .error .ioError
    ∧ r.nv.data = Dict.update d k v
    ∧ NonVolatile.get r.nv k = .ok (v, r.nv)
    ∧ (SetStep.preRename f = true → r.fs = fs) := by
  intro r hr
  rw [set_init_fail_eq] at hr
  injection hr with hr
  subst hr
  refine ⟨rfl, rfl, ?_, ?_⟩
  · rw [show (⟨.error .ioError, ⟨RWLock.init, Dict.update d k v⟩,
        (if SetStep.preRename f then fs else ⟨.holds (.obj (Dict.update d k v))⟩),
        Event.writerAcquire :: Event.memWrite k v ::
          (atomicPersist fs fn (Dict.update d k v) (some f)).2.2 ++ [Event.writerRelease]⟩ : SetResult).nv
        = ⟨RWLock.init, Dict.update d k v⟩ from rfl]
    rw [get_init_eq, Dict.getD_update]
  · intro hp; simp [hp]

/-- Witness for C10 at a concrete input. -/
theorem failed_set_divergence_witness :
    (⟨.error .ioError, ⟨RWLock.init, Dict.update [("k", "0")] "k" "9"⟩, ⟨.absent⟩,
        [Event.writerAcquire, Event.memWrite "k" "9",
         Event.tempCreate (dirname "/srv/data.dat"), Event.writerRelease]⟩ : SetResult).status
        = .error .ioError
  ∧ (⟨.error .ioError, ⟨RWLock.init, Dict.update [("k", "0")] "k" "9"⟩, ⟨.absent⟩,
        [Event.writerAcquire, Event.memWrite "k" "9",
         Event.tempCreate (dirname "/srv/data.dat"), Event.writerRelease]⟩ : SetResult).nv.data
        = Dict.update [("k", "0")] "k" "9"
  ∧ NonVolatile.get (⟨.error .ioError, ⟨RWLock.init, Dict.update [("k", "0")] "k" "9"⟩, ⟨.absent⟩,
        [Event.writerAcquire, Event.memWrite "k" "9",
         Event.tempCreate (dirname "/srv/data.dat"), Event.writerRelease]⟩ : SetResult).nv "k"
        = .ok ("9", (⟨.error .ioError, ⟨RWLock.init, Dict.update [("k", "0")] "k" "9"⟩, ⟨.absent⟩,
            [Event.writerAcquire, Event.memWrite "k" "9",
             Event.tempCreate (dirname "/srv/data.dat"), Event.writerRelease]⟩ : SetResult).nv)
  ∧ (SetStep.preRename .jsonDump = true →
      (⟨.error .ioError, ⟨RWLock.init, Dict.update [("k", "0")] "k" "9"⟩, ⟨.absent⟩,
        [Event.writerAcquire, Event.memWrite "k" "9",
         Event.tempCreate (dirname "/srv/data.dat"), Event.writerRelease]⟩ : SetResult).fs = ⟨.absent⟩) :=
  failed_set_divergence [("k", "0")] ⟨.absent⟩ "/srv/data.dat" "k" "9" .jsonDump
    ⟨.error .ioError, ⟨RWLock.init, Dict.update [("k", "0")] "k" "9"⟩, ⟨.absent⟩,
     [Event.writerAcquire, Event.memWrite "k" "9",
      Event.tempCreate (dirname "/srv/data.dat"), Event.writerRelease]⟩ rfl

/-! ### Concurrent small-step model of RWLock

Threads running reader_acquire / reader_release / writer_acquire /
writer_release concurrently, one transition per atomic semaphore or counter
operation of the Python source.  Threads at the same program point are
interchangeable, so the state tallies how many threads sit at each point.

Reader program points, in source order (reader_acquire lines 92-98, then
holding the lock, then reader_release lines 101-105):
a1 before reader_semaphore.acquire; a2 before counter_semaphore.acquire;
a3 before the counter increment; a4 before the conditional
writer_semaphore.acquire of the first reader; a5 before
counter_semaphore.release; a6 before reader_semaphore.release; reading
while holding the lock in reader mode; b1 before
counter_semaphore.acquire; b2 before the counter decrement; b3 before the
conditional writer_semaphore.release of the last reader; b4 before
counter_semaphore.release.

Writer program points (writer_acquire lines 108-109, writer_release lines
112-113): w1 before reader_semaphore.acquire; w2 before
writer_semaphore.acquire; writing while holding the lock in writer mode;
w3 after writer_semaphore.release, before reader_semaphore.release.

Semaphores are their integer values; acquiring needs a positive value and
decrements it, releasing increments it. -/

structure LockSys where
  nIdle : Nat
  nA1 : Nat
  nA2 : Nat
  nA3 : Nat
  nA4 : Nat
  nA5 : Nat
  nA6 : Nat
  nReading : Nat
  nB1 : Nat
  nB2 : Nat
  nB3 : Nat
  nB4 : Nat
  nW1 : Nat
  nW2 : Nat
  nWriting : Nat
  nW3 : Nat
  counter : Int
  counterSem : Nat
  readerSem : Nat
  writerSem : Nat
deriving DecidableEq

/-- n idle threads, counter 0, all three semaphores available. -/
def LockSys.start (n : Nat) : LockSys :=
  ⟨n, 0, 0, 0, 0, 0, 0, 0, 0, 0, 0, 0, 0, 0, 0, 0, 0, 1, 1, 1⟩

/-- One atomic step of one thread.  Each constructor is one semaphore or
counter operation of the Python methods. -/
inductive Step : LockSys → LockSys → Prop
  | startRead (s : LockSys) (h : 1 ≤ s.nIdle) :
      Step s { s with nIdle := s.nIdle - 1, nA1 := s.nA1 + 1 }
  | readerTakesReaderGate (s : LockSys) (h : 1 ≤ s.nA1) (hg : 1 ≤ s.readerSem) :
      Step s { s with nA1 := s.nA1 - 1, nA2 := s.nA2 + 1, readerSem := s.readerSem - 1 }
  | readerTakesCounterGuard (s : LockSys) (h : 1 ≤ s.nA2) (hg : 1 ≤ s.counterSem) :
      Step s { s with nA2 := s.nA2 - 1, nA3 := s.nA3 + 1, counterSem := s.counterSem - 1 }
  | readerIncrementsCounter (s : LockSys) (h : 1 ≤ s.nA3) :
      Step s { s with nA3 := s.nA3 - 1, nA4 := s.nA4 + 1, counter := s.counter + 1 }
  | firstReaderTakesWriterGate (s : LockSys) (h : 1 ≤ s.nA4) (hc : s.counter = 1)
      (hg : 1 ≤ s.writerSem) :
      Step s { s with nA4 := s.nA4 - 1, nA5 := s.nA5 + 1, writerSem := s.writerSem - 1 }
  | laterReaderSkipsWriterGate (s : LockSys) (h : 1 ≤ s.nA4) (hc : s.counter ≠ 1) :
      Step s { s with nA4 := s.nA4 - 1, nA5 := s.nA5 + 1 }
  | readerFreesCounterGuardAcq (s : LockSys) (h : 1 ≤ s.nA5) :
      Step s { s with nA5 := s.nA5 - 1, nA6 := s.nA6 + 1, counterSem := s.counterSem + 1 }
  | readerFreesReaderGate (s : LockSys) (h : 1 ≤ s.nA6) :
      Step s { s with nA6 := s.nA6 - 1, nReading := s.nReading + 1, readerSem := s.readerSem + 1 }
  | startReadRelease (s : LockSys) (h : 1 ≤ s.nReading) :
      Step s { s with nReading := s.nReading - 1, nB1 := s.nB1 + 1 }
  | releaserTakesCounterGuard (s : LockSys) (h : 1 ≤ s.nB1) (hg : 1 ≤ s.counterSem) :
      Step s { s with nB1 := s.nB1 - 1, nB2 := s.nB2 + 1, counterSem := s.counterSem - 1 }
  | readerDecrementsCounter (s : LockSys) (h : 1 ≤ s.nB2) :
      Step s { s with nB2 := s.nB2 - 1, nB3 := s.nB3 + 1, counter := s.counter - 1 }
  | lastReaderFreesWriterGate (s : LockSys) (h : 1 ≤ s.nB3) (hc : s.counter = 0) :
      Step s { s with nB3 := s.nB3 - 1, nB4 := s.nB4 + 1, writerSem := s.writerSem + 1 }
  | notLastReader (s : LockSys) (h : 1 ≤ s.nB3) (hc : s.counter ≠ 0) :
      Step s { s with nB3 := s.nB3 - 1, nB4 := s.nB4 + 1 }
  | releaserFreesCounterGuard (s : LockSys) (h : 1 ≤ s.nB4) :
      Step s { s with nB4 := s.nB4 - 1, nIdle := s.nIdle + 1, counterSem := s.counterSem + 1 }
  | startWrite (s : LockSys) (h : 1 ≤ s.nIdle) :
      Step s { s with nIdle := s.nIdle - 1, nW1 := s.nW1 + 1 }
  | writerTakesReaderGate (s : LockSys) (h : 1 ≤ s.nW1) (hg : 1 ≤ s.readerSem) :
      Step s { s with nW1 := s.nW1 - 1, nW2 := s.nW2 + 1, readerSem := s.readerSem - 1 }
  | writerTakesWriterGate (s : LockSys) (h : 1 ≤ s.nW2) (hg : 1 ≤ s.writerSem) :
      Step s { s with nW2 := s.nW2 - 1, nWriting := s.nWriting + 1, writerSem := s.writerSem - 1 }
  | writerFreesWriterGate (s : LockSys) (h : 1 ≤ s.nWriting) :
      Step s { s with nWriting := s.nWriting - 1, nW3 := s.nW3 + 1, writerSem := s.writerSem + 1 }
  | writerFreesReaderGate (s : LockSys) (h : 1 ≤ s.nW3) :
      Step s { s with nW3 := s.nW3 - 1, nIdle := s.nIdle + 1, readerSem := s.readerSem + 1 }

/-- States reachable from a start state by disciplined threads: every
release is the continuation of the matching earlier acquire. -/
inductive Reachable : LockSys → Prop
  | start (n : Nat) : Reachable (LockSys.start n)
  | step {s s' : LockSys} (h : Reachable s) (hs : Step s s') : Reachable s'

/-- Threads currently holding reader_semaphore. -/
def rdHolders (s : LockSys) : Nat :=
  s.nA2 + s.nA3 + s.nA4 + s.nA5 + s.nA6 + s.nW2 + s.nWriting + s.nW3

/-- Threads currently holding counter_semaphore. -/
def csHolders (s : LockSys) : Nat :=
  s.nA3 + s.nA4 + s.nA5 + s.nB2 + s.nB3 + s.nB4

/-- Threads counted by the reader counter: those past the increment and
before the decrement. -/
def counted (s : LockSys) : Nat :=
  s.nA4 + s.nA5 + s.nA6 + s.nReading + s.nB1 + s.nB2

/-- The reader group holds writer_semaphore: some first reader has taken it
and the matching last-reader release has not happened yet. -/
def ReadersHold (s : LockSys) : Prop :=
  (s.counter = 1 ∧ s.nA4 = 0) ∨ 2 ≤ s.counter ∨ (s.counter = 0 ∧ 1 ≤ s.nB3)

/-- The inductive invariant of the lock: each binary semaphore's value plus
its holders is one, the counter counts the counted threads, and
writer_semaphore is taken exactly when a writer holds it or the reader
group holds it, never both. -/
def LockInv (s : LockSys) : Prop :=
  s.readerSem + rdHolders s = 1
  ∧ s.counterSem + csHolders s = 1
  ∧ s.counter = (counted s : Int)
  ∧ ((s.writerSem = 1 ∧ s.nWriting = 0 ∧ ¬ ReadersHold s)
     ∨ (s.writerSem = 0 ∧ s.nWriting = 1 ∧ ¬ ReadersHold s)
     ∨ (s.writerSem = 0 ∧ s.nWriting = 0 ∧ ReadersHold s))

theorem inv_start (n : Nat) : LockInv (LockSys.start n) := by
  simp [LockInv, LockSys.start, rdHolders, csHolders, counted, ReadersHold]

theorem inv_step {s s' : LockSys} (hi : LockInv s) (hs : Step s s') : LockInv s' := by
  cases hs <;>
    (simp only [LockInv, rdHolders, csHolders, counted, ReadersHold] at hi ⊢) <;>
    omega

theorem inv_reachable {s : LockSys} (h : Reachable s) : LockInv s := by
  induction h with
  | start n => exact inv_start n
  | step _ hs ih => exact inv_step ih hs

/-! ### C7: reader-writer exclusion invariants -/

/-- C7.  In every reachable state of the lock under disciplined use: the
writer gate is taken whenever some caller holds the lock in reader mode; at
most one caller holds the lock in writer mode; and while a writer holds the
lock, no caller holds it in reader mode, none is anywhere inside
reader_release, and no other writer holds it. -/
theorem rwlock_exclusion (s : LockSys) (h : Reachable s) :
    (1 ≤ s.nReading → s.writerSem = 0)
  ∧ s.nWriting ≤ 1
  ∧ (1 ≤ s.nWriting →
      s.nReading = 0 ∧ s.nB1 = 0 ∧ s.nB2 = 0 ∧ s.nB3 = 0 ∧ s.nWriting = 1) := by
  have hi := inv_reachable h
  simp only [LockInv, rdHolders, csHolders, counted, ReadersHold] at hi
  omega

/-- Witness for C7 at a concrete reachable state. -/
theorem rwlock_exclusion_witness :
    (1 ≤ (LockSys.start 2).nReading → (LockSys.start 2).writerSem = 0)
  ∧ (LockSys.start 2).nWriting ≤ 1
  ∧ (1 ≤ (LockSys.start 2).nWriting →
      (LockSys.start 2).nReading = 0 ∧ (LockSys.start 2).nB1 = 0
      ∧ (LockSys.start 2).nB2 = 0 ∧ (LockSys.start 2).nB3 = 0
      ∧ (LockSys.start 2).nWriting = 1) :=
  rwlock_exclusion (LockSys.start 2) (Reachable.start 2)

/-! ### C8: a waiting writer and new readers -/

/-- C8 (amended).  Once the writer has taken the reader-admission gate and
is waiting on the writer gate (program point w2, the acquire on line 109),
no reader is anywhere inside the admission section, and every possible next
step keeps it that way: no reader completes admission, the reader counter
never grows, and the writer either stays at w2 or takes the lock; hence at
most the readers already inside at that moment must release before the
writer is granted.  (While the writer is still blocked on the reader-admission gate
itself, line 108, this protection has not started yet.) -/
theorem waiting_writer_blocks_admission (s s' : LockSys) (h : Reachable s)
    (hw : 1 ≤ s.nW2) (hs : Step s s') :
    (s.nA2 = 0 ∧ s.nA3 = 0 ∧ s.nA4 = 0 ∧ s.nA5 = 0 ∧ s.nA6 = 0)
  ∧ s.readerSem = 0
  ∧ s'.nReading ≤ s.nReading
  ∧ s'.counter ≤ s.counter
  ∧ (s'.nW2 = s.nW2 ∨ (s'.nWriting = s.nWriting + 1 ∧ s'.nW2 = s.nW2 - 1)) := by
  have hi := inv_reachable h
  simp only [LockInv, rdHolders, csHolders, counted, ReadersHold] at hi
  cases hs <;> dsimp only <;> omega

/-- A state with one writer waiting at the writer gate, reached by: the
writer enters writer_acquire and takes the reader gate. -/
abbrev wWait : LockSys :=
  { LockSys.start 1 with
    nIdle := (LockSys.start 1).nIdle - 1, nW1 := (LockSys.start 1).nW1 + 1 }

/-- The writer at w2: it has also taken the reader gate. -/
abbrev wAtGate : LockSys :=
  { wWait with
    nW1 := wWait.nW1 - 1, nW2 := wWait.nW2 + 1, readerSem := wWait.readerSem - 1 }

/-- The writer takes the writer gate and holds the lock. -/
abbrev wHolding : LockSys :=
  { wAtGate with
    nW2 := wAtGate.nW2 - 1, nWriting := wAtGate.nWriting + 1, writerSem := wAtGate.writerSem - 1 }

/-- Witness for C8's amended statement at a concrete reachable state and
step. -/
theorem waiting_writer_blocks_admission_witness :
    (wAtGate.nA2 = 0 ∧ wAtGate.nA3 = 0 ∧ wAtGate.nA4 = 0 ∧ wAtGate.nA5 = 0 ∧ wAtGate.nA6 = 0)
  ∧ wAtGate.readerSem = 0
  ∧ wHolding.nReading ≤ wAtGate.nReading
  ∧ wHolding.counter ≤ wAtGate.counter
  ∧ (wHolding.nW2 = wAtGate.nW2
     ∨ (wHolding.nWriting = wAtGate.nWriting + 1 ∧ wHolding.nW2 = wAtGate.nW2 - 1)) :=
  waiting_writer_blocks_admission wAtGate wHolding
    (Reachable.step (Reachable.step (Reachable.start 1)
      (Step.startWrite (LockSys.start 1) (by decide)))
      (Step.writerTakesReaderGate wWait (by decide) (by decide)))
    (by decide)
    (Step.writerTakesWriterGate wAtGate (by decide) (by decide))

/-! ### Counterexample trace for C8 as stated

Three threads: reader R1, the writer W, reader R2.  R1 enters
reader_acquire and takes the reader gate; W then enters writer_acquire and
is waiting (the reader gate is taken, so its acquire on line 108 blocks);
R2 then starts reader_acquire, strictly after W began waiting.  R1
completes admission and frees the reader gate; the semaphores of the
threading module guarantee no FIFO order, so R2 may take the freed gate
before the blocked W, and R2 then completes admission.  A reader that
arrived after the writer was already waiting inside writer_acquire has
completed admission while the writer has still acquired nothing. -/

def cex0 : LockSys := LockSys.start 3
def cex1 : LockSys := { cex0 with nIdle := cex0.nIdle - 1, nA1 := cex0.nA1 + 1 }
def cex2 : LockSys :=
  { cex1 with nA1 := cex1.nA1 - 1, nA2 := cex1.nA2 + 1, readerSem := cex1.readerSem - 1 }
def cex3 : LockSys := { cex2 with nIdle := cex2.nIdle - 1, nW1 := cex2.nW1 + 1 }
def cex4 : LockSys := { cex3 with nIdle := cex3.nIdle - 1, nA1 := cex3.nA1 + 1 }
def cex5 : LockSys :=
  { cex4 with nA2 := cex4.nA2 - 1, nA3 := cex4.nA3 + 1, counterSem := cex4.counterSem - 1 }
def cex6 : LockSys :=
  { cex5 with nA3 := cex5.nA3 - 1, nA4 := cex5.nA4 + 1, counter := cex5.counter + 1 }
def cex7 : LockSys :=
  { cex6 with nA4 := cex6.nA4 - 1, nA5 := cex6.nA5 + 1, writerSem := cex6.writerSem - 1 }
def cex8 : LockSys :=
  { cex7 with nA5 := cex7.nA5 - 1, nA6 := cex7.nA6 + 1, counterSem := cex7.counterSem + 1 }
def cex9 : LockSys :=
  { cex8 with nA6 := cex8.nA6 - 1, nReading := cex8.nReading + 1, readerSem := cex8.readerSem + 1 }
def cex10 : LockSys :=
  { cex9 with nA1 := cex9.nA1 - 1, nA2 := cex9.nA2 + 1, readerSem := cex9.readerSem - 1 }
def cex11 : LockSys :=
  { cex10 with nA2 := cex10.nA2 - 1, nA3 := cex10.nA3 + 1, counterSem := cex10.counterSem - 1 }
def cex12 : LockSys :=
  { cex11 with nA3 := cex11.nA3 - 1, nA4 := cex11.nA4 + 1, counter := cex11.counter + 1 }
def cex13 : LockSys := { cex12 with nA4 := cex12.nA4 - 1, nA5 := cex12.nA5 + 1 }
def cex14 : LockSys :=
  { cex13 with nA5 := cex13.nA5 - 1, nA6 := cex13.nA6 + 1, counterSem := cex13.counterSem + 1 }
def cex15 : LockSys :=
  { cex14 with nA6 := cex14.nA6 - 1, nReading := cex14.nReading + 1, readerSem := cex14.readerSem + 1 }

/-- Counterexample for C8 as stated: an execution in which the writer is
waiting inside writer_acquire from cex3 on (one thread at w1, the reader
gate taken or repeatedly overtaken, the writer never at writing), a new
reader begins reader_acquire only afterwards (the step into cex4), and that
reader completes admission (nReading reaches 2 at cex15) before the writer
has acquired and released the lock. -/
theorem writer_overtaken_by_new_reader :
    Step cex0 cex1 ∧ Step cex1 cex2 ∧ Step cex2 cex3 ∧ Step cex3 cex4
  ∧ Step cex4 cex5 ∧ Step cex5 cex6 ∧ Step cex6 cex7 ∧ Step cex7 cex8
  ∧ Step cex8 cex9 ∧ Step cex9 cex10 ∧ Step cex10 cex11 ∧ Step cex11 cex12
  ∧ Step cex12 cex13 ∧ Step cex13 cex14 ∧ Step cex14 cex15
  ∧ cex3.nW1 = 1 ∧ cex3.readerSem = 0 ∧ cex3.nReading = 0
  ∧ cex4.nA1 = cex3.nA1 + 1
  ∧ cex4.nW1 = 1 ∧ cex5.nW1 = 1 ∧ cex6.nW1 = 1 ∧ cex7.nW1 = 1 ∧ cex8.nW1 = 1
  ∧ cex9.nW1 = 1 ∧ cex10.nW1 = 1 ∧ cex11.nW1 = 1 ∧ cex12.nW1 = 1
  ∧ cex13.nW1 = 1 ∧ cex14.nW1 = 1 ∧ cex15.nW1 = 1
  ∧ cex15.nWriting = 0 ∧ cex15.nW2 = 0 ∧ cex15.nW3 = 0
  ∧ cex9.nReading = 1 ∧ cex15.nReading = 2 :=
  ⟨Step.startRead cex0 (by decide),
   Step.readerTakesReaderGate cex1 (by decide) (by decide),
   Step.startWrite cex2 (by decide),
   Step.startRead cex3 (by decide),
   Step.readerTakesCounterGuard cex4 (by decide) (by decide),
   Step.readerIncrementsCounter cex5 (by decide),
   Step.firstReaderTakesWriterGate cex6 (by decide) (by decide) (by decide),
   Step.readerFreesCounterGuardAcq cex7 (by decide),
   Step.readerFreesReaderGate cex8 (by decide),
   Step.readerTakesReaderGate cex9 (by decide) (by decide),
   Step.readerTakesCounterGuard cex10 (by decide) (by decide),
   Step.readerIncrementsCounter cex11 (by decide),
   Step.laterReaderSkipsWriterGate cex12 (by decide) (by decide),
   Step.readerFreesCounterGuardAcq cex13 (by decide),
   Step.readerFreesReaderGate cex14 (by decide),
   by decide⟩

end DatabaseServer
